import Mathlib

/-!
Shallow embedding of the `flight` stereoscopic rendering front-end
(src/draw/mod.rs, src/draw/unishade.rs, src/vr.rs).

Conventions of the embedding:
* GPU and device handles (render targets, depth targets, vertex buffers,
  constant buffers, slices, shader sets, pipeline-state objects, layer
  texture ids) are opaque `Nat` identifiers.
* `f32`/`f64` scalars are modelled as `ℚ` (the code performs only exact
  copies, comparisons with zero, and subtraction on them).
* 4x4 homogeneous transforms (`nalgebra::Transform3`) are
  `Matrix (Fin 4) (Fin 4) ℚ`; the representation conversions
  (`advanced`/`downgrade` of the `NativeRepr` helper) are identities here.
* Rigid poses (`nalgebra::IsometryMatrix3`), which the code only composes
  and inverts, are elements of an arbitrary group `P`.
* mutation through `&mut` is explicit state passing; an encoder is the
  list of GPU commands recorded on it.
-/

namespace Flight

/-! ### Scalars, vectors and matrices -/

abbrev Mat4 := Matrix (Fin 4) (Fin 4) ℚ

abbrev Vec4 := Fin 4 → ℚ

abbrev Pt3 := Fin 3 → ℚ

/-- `nalgebra` `Point3::to_homogeneous`: append a `1` as the fourth
coordinate. -/
def toHomogeneous (p : Pt3) : Vec4 :=
  fun i => if h : (i : ℕ) < 3 then p ⟨i, h⟩ else 1

/-- `nalgebra` `Transform3::try_inverse`: `some` of the inverse when the
matrix is invertible, `none` otherwise. -/
def tryInverse (m : Mat4) : Option Mat4 :=
  if m.det = 0 then none else some (m.det⁻¹ • m.adjugate)

/-! ### Opaque GPU handles (gfx collaborator) -/

abbrev TargetRef := Nat

abbrev DepthRef := Nat

abbrev VBuffer := Nat

abbrev GfxSlice := Nat

abbrev BufHandle := Nat

/-- `gfx::Primitive` topologies. -/
inductive Primitive where
  | PointList
  | LineList
  | LineStrip
  | TriangleList
  | TriangleStrip
  | PatchList (n : Nat)
deriving DecidableEq

/-- `gfx::state::Rasterizer` (only `new_fill()` is used by the painter). -/
structure Rasterizer where
  fill : Bool
deriving DecidableEq

def Rasterizer.new_fill : Rasterizer := ⟨true⟩

/-- `gfx::Rect` viewport/scissor rectangle. -/
structure Rect where
  x : Nat
  y : Nat
  w : Nat
  h : Nat
deriving DecidableEq

/-! ### Draw-side data model (src/draw/mod.rs) -/

/-- The per-eye uniform payload (`TransformBlock` in `mod defines`). -/
structure TransformBlock where
  model : Mat4
  view : Mat4
  proj : Mat4
  eye : Vec4
  clip_offset : ℚ

/-- `EyeContext` (src/draw/context.rs, used by `try_draw` and `sync`). -/
structure EyeContext where
  eye : Pt3
  view : Mat4
  proj : Mat4
  clip_offset : ℚ
  clip : Rect

/-- `DrawParams`: per-frame bundle of eye contexts, encoder and targets.
The encoder is the list of commands of type `Event` recorded so far. -/
structure DrawParams (Event : Type) where
  left : EyeContext
  right : EyeContext
  encoder : List Event
  color : TargetRef
  depth : DepthRef

/-- A mesh: primitive topology, draw slice, vertex buffer, material. -/
structure Mesh (Material : Type) where
  prim : Primitive
  slice : GfxSlice
  buf : VBuffer
  mat : Material

/-- `FlightError` kinds reached by the embedded code, with the
`failure::Fail::context` message attached. -/
inductive Error where
  | invalidPrimitive (given : Primitive) (context : String)
  | gpu (msg : String)
deriving DecidableEq

/-- The `Style` + `StyleInputs` trait pair: a dictionary of the three
operations `Painter` invokes. `new` compiles a pipeline for one topology
(mutating the inputs), `draw_raw` drains pending uniform updates into GPU
buffers and issues one draw call (mutating inputs and encoder), and
`transform` is `StyleInputs::transform`, staging a pending block. -/
structure StyleImpl (Sty Inputs Material Event : Type) where
  new : Inputs → Primitive → Rasterizer → Except Error (Sty × Inputs)
  draw_raw : Sty → Inputs → List Event → TargetRef → DepthRef → Rect →
    GfxSlice → VBuffer → Material → Except Error Unit × Inputs × List Event
  transform : Inputs → TransformBlock → Inputs

/-- Association-list lookup standing for `FnvHashMap::get`. -/
def lookupPrim (prim : Primitive) : List (Primitive × α) → Option α
  | [] => none
  | (k, v) :: rest => if k = prim then some v else lookupPrim prim rest

/-- `Painter<R, E>`: the style's inputs plus the topology → compiled
pipeline map. -/
structure Painter (Sty Inputs : Type) where
  inputs : Inputs
  map : List (Primitive × Sty)

/-- `Painter::setup`: insert a compiled pipeline for `prim` if absent
(`Entry::Vacant`), no-op otherwise. -/
def Painter.setup (impl : StyleImpl Sty Inputs Material Event)
    (p : Painter Sty Inputs) (prim : Primitive) :
    Except Error (Painter Sty Inputs) :=
  match lookupPrim prim p.map with
  | some _ => .ok p
  | none =>
    match impl.new p.inputs prim Rasterizer.new_fill with
    | .ok (sty, inputs) => .ok { inputs := inputs, map := (prim, sty) :: p.map }
    | .error e => .error e

/-- `Painter::try_draw`: draw `mesh` for the left eye then the right eye,
or fail with `InvalidPrimitive` if `setup` has not been run for the mesh's
topology. Returns the result together with the final inputs and encoder
state. -/
def Painter.try_draw (impl : StyleImpl Sty Inputs Material Event)
    (p : Painter Sty Inputs) (ctx : DrawParams Event) (model : Mat4)
    (mesh : Mesh Material) :
    Except Error Unit × Inputs × List Event :=
  match lookupPrim mesh.prim p.map with
  | some sty =>
    let trans : TransformBlock :=
      { eye := toHomogeneous ctx.left.eye
        model := model
        view := ctx.left.view
        proj := ctx.left.proj
        clip_offset := ctx.left.clip_offset }
    let inputs := impl.transform p.inputs trans
    match impl.draw_raw sty inputs ctx.encoder ctx.color ctx.depth
        ctx.left.clip mesh.slice mesh.buf mesh.mat with
    | (.error e, inputs, enc) => (.error e, inputs, enc)
    | (.ok _, inputs, enc) =>
      let trans :=
        { trans with
            eye := toHomogeneous ctx.right.eye
            view := ctx.right.view
            proj := ctx.right.proj
            clip_offset := ctx.right.clip_offset }
      let inputs := impl.transform inputs trans
      match impl.draw_raw sty inputs enc ctx.color ctx.depth
          ctx.right.clip mesh.slice mesh.buf mesh.mat with
      | (.error e, inputs, enc) => (.error e, inputs, enc)
      | (.ok _, inputs, enc) => (.ok (), inputs, enc)
  | none =>
    (.error (.invalidPrimitive mesh.prim
        "setup has not been done for this primitive type"),
     p.inputs, ctx.encoder)

/-! ### The Unishade style (src/draw/unishade.rs) -/

/-- `UnishadeBlock`: the two shading colors. -/
structure UnishadeBlock where
  dark : Vec4
  light : Vec4

/-- `UnishadeInputs`: shader set plus the two pending-value/buffer pairs. -/
structure UnishadeInputs where
  shaders : Nat
  transform : Option TransformBlock
  transform_block : BufHandle
  shade : Option UnishadeBlock
  shade_block : BufHandle

/-- `UnishadeInputs::colors`: stage the pending shade block. -/
def UnishadeInputs.colors (i : UnishadeInputs) (dark light : Vec4) :
    UnishadeInputs :=
  { i with shade := some { dark := dark, light := light } }

/-- `UnishadeStyle`: just the compiled pipeline-state object. -/
structure UnishadeStyle where
  pso : Nat
deriving DecidableEq

/-- The `pl::Data` bundle passed to `Encoder::draw`. -/
structure PlData where
  color : TargetRef
  depth : DepthRef
  verts : VBuffer
  scissor : Rect
  transform : BufHandle
  shade : BufHandle

/-- GPU commands recorded on an encoder by the unishade style. -/
inductive UEvent where
  | updateTransformBuffer (buf : BufHandle) (val : TransformBlock)
  | updateShadeBuffer (buf : BufHandle) (val : UnishadeBlock)
  | draw (slice : GfxSlice) (pso : Nat) (data : PlData)

/-- `UnishadeStyle::draw_raw`: drain the pending transform and shade
blocks into their constant buffers, then issue one draw call. -/
def UnishadeStyle.draw_raw (sty : UnishadeStyle) (inputs : UnishadeInputs)
    (enc : List UEvent) (color : TargetRef) (depth : DepthRef)
    (scissor : Rect) (slice : GfxSlice) (buf : VBuffer) (_mat : Unit) :
    Except Error Unit × UnishadeInputs × List UEvent :=
  let step1 : UnishadeInputs × List UEvent :=
    match inputs.transform with
    | some t =>
      ({ inputs with transform := none },
       enc ++ [.updateTransformBuffer inputs.transform_block t])
    | none => (inputs, enc)
  let step2 : UnishadeInputs × List UEvent :=
    match step1.1.shade with
    | some sh =>
      ({ step1.1 with shade := none },
       step1.2 ++ [.updateShadeBuffer step1.1.shade_block sh])
    | none => step1
  (.ok (), step2.1,
   step2.2 ++ [.draw slice sty.pso
     { color := color, depth := depth, verts := buf, scissor := scissor,
       transform := step2.1.transform_block, shade := step2.1.shade_block }])

/-- `UnishadeStyle::init` with the factory-created handles abstracted as
arguments: no pending values, fresh constant buffers. -/
def unishade_init (shaders transform_block shade_block : Nat) :
    UnishadeInputs :=
  { shaders := shaders, transform := none, transform_block := transform_block,
    shade := none, shade_block := shade_block }

/-- `UnishadeStyle::new`: compile a pipeline-state object for the topology
(the gfx factory call is abstracted; it does not touch the inputs). -/
def UnishadeStyle.new (inputs : UnishadeInputs) (_prim : Primitive)
    (_r : Rasterizer) : Except Error (UnishadeStyle × UnishadeInputs) :=
  .ok ({ pso := inputs.shaders }, inputs)

/-- The `Style`/`StyleInputs` dictionary of the unishade style. -/
def unishadeImpl : StyleImpl UnishadeStyle UnishadeInputs Unit UEvent where
  new := UnishadeStyle.new
  draw_raw := UnishadeStyle.draw_raw
  transform := fun i block => { i with transform := some block }

/-! ### VR data model (src/vr.rs)

Poses (`IsometryMatrix3<f32>`) are elements of an arbitrary group `P`;
the code only composes (`*`) and inverts them. `webvr` raw quaternion and
position payloads are opaque types `Q` and `T`; `Isometry3::from_parts`
together with the quaternion normalisation `Unit::new_normalize` is the
abstracted builder `fromParts : T → Q → P`, and the `na::convert`
f64 → f32 cast is the identity. -/

/-- A `webvr::VRGamepadButton`. -/
structure ButtonM where
  pressed : Bool
  touched : Bool
deriving DecidableEq

/-- A `webvr::VRPose` restricted to the parts the code reads: optional
orientation and position. -/
structure VRPoseM (Q T : Type) where
  orientation : Option Q
  position : Option T

/-- `pose_transform`: `some` isometry when both the orientation and the
position are present, `none` otherwise (src/vr.rs lines 292-298). -/
def pose_transform (fromParts : T → Q → P) (ctr : VRPoseM Q T) : Option P :=
  match ctr.orientation with
  | none => none
  | some o =>
    match ctr.position with
    | none => none
    | some pos => some (fromParts pos o)

/-- A `Controller` entry of a `VrMoment`. -/
structure ControllerM (P : Type) where
  name : String
  pose : P
  axes : List ℚ
  buttons : List ButtonM

/-- The headset entry of a `VrMoment`. The two per-eye `EyeContext`
values are elided from the embedding: they are produced by external f32
matrix inversion (`left_view.try_inverse().unwrap()`) that no claim
references. -/
structure HmdM (P : Type) where
  name : String
  size : Nat × Nat
  pose : P

/-- `VrMoment`: the immutable per-frame snapshot. The controller map
(`FnvHashMap<u32, Controller>`) is a function from device id. -/
structure VrMomentM (P : Type) where
  cont : Nat → Option (ControllerM P)
  hmd : Option (HmdM P)
  primary : Option Nat
  secondary : Option Nat
  tertiary : Option Nat
  layer : Nat
  stage : Mat4
  exit : Bool
  paused : Bool

/-- `ControllerRef`. -/
inductive ControllerRef where
  | Primary
  | Secondary
  | Tertiary
  | Indexed (i : Nat)
deriving DecidableEq

/-- `ControllerRef::index`: resolve the role against a moment. -/
def ControllerRef.index (r : ControllerRef) (m : VrMomentM P) : Option Nat :=
  match r with
  | .Primary => m.primary
  | .Secondary => m.secondary
  | .Tertiary => m.tertiary
  | .Indexed i => some i

/-- `ControllerRef::fixed`: lock a role-based ref to the currently active
controller, or return `self` unchanged when the role resolves to none. -/
def ControllerRef.fixed (r : ControllerRef) (m : VrMomentM P) : ControllerRef :=
  match r.index m with
  | some i => .Indexed i
  | none => r

/-- `VrMoment::controller`: look the resolved id up in the controller
map. -/
def VrMomentM.controller (m : VrMomentM P) (role : ControllerRef) :
    Option (ControllerM P) :=
  match role.index m with
  | some i => m.cont i
  | none => none

/-! ### VrContext::sync (src/vr.rs lines 80-173) -/

/-- `webvr::VREvent` restricted to the display events `sync` matches on;
everything else is `other`. -/
inductive VREventM where
  | displayPause
  | displayResume
  | displayExit
  | other

/-- `webvr::VREyeParameters` (the fields `size_from_data` reads). -/
structure EyeParams where
  render_width : Nat
  render_height : Nat

/-- `webvr::VRStageParameters` (the field `sync` reads). -/
structure StageParams where
  sitting_to_standing_transform : Mat4

/-- `webvr::VRDisplayData` restricted to the fields `sync` reads. -/
structure VRDisplayDataM where
  display_name : String
  connected : Bool
  left_eye_parameters : EyeParams
  right_eye_parameters : EyeParams
  stage_parameters : Option StageParams

/-- `webvr::VRFrameData` restricted to the headset pose; the four per-eye
view/projection matrices feed only the elided `EyeContext`s. -/
structure VRFrameDataM (Q T : Type) where
  pose : VRPoseM Q T

/-- One enumerated gamepad: its id together with the `data()` and
`state()` fields the code reads. -/
structure GamepadM (Q T : Type) where
  id : Nat
  name : String
  pose : VRPoseM Q T
  axes : List ℚ
  buttons : List ButtonM

/-- The mutable state of a `VrContext` (service manager and display
handles elided). -/
structure VrContextM where
  near : ℚ
  far : ℚ
  layer : Nat
  exit : Bool
  paused : Bool

/-- Everything the device layer hands `sync` on one call: the drained
event queue, the display data, the synced frame data and the enumerated
gamepads, in enumeration order. -/
structure SyncInput (Q T : Type) where
  events : List VREventM
  data : VRDisplayDataM
  frame : VRFrameDataM Q T
  gamepads : List (GamepadM Q T)

/-- `size_from_data` (src/vr.rs lines 18-22). -/
def size_from_data (data : VRDisplayDataM) : Nat × Nat :=
  (data.left_eye_parameters.render_width + data.right_eye_parameters.render_width,
   max data.left_eye_parameters.render_height data.right_eye_parameters.render_height)

/-- One step of the event-drain loop at the top of `sync`. -/
def applyEvent (c : VrContextM) : VREventM → VrContextM
  | .displayPause => { c with paused := true }
  | .displayResume => { c with paused := false }
  | .displayExit => { c with exit := true }
  | .other => c

/-- One step of the gamepad loop at the bottom of `sync`: insert a
`Controller` entry iff `pose_transform` succeeds on the gamepad's pose. -/
def contStep (fromParts : T → Q → P) (m : Nat → Option (ControllerM P))
    (gp : GamepadM Q T) : Nat → Option (ControllerM P) :=
  match pose_transform fromParts gp.pose with
  | some pose =>
    fun j => if j = gp.id then
      some { name := gp.name, pose := pose, axes := gp.axes,
             buttons := gp.buttons }
    else m j
  | none => m

/-- `VrContext::sync`: drain events into the pause/exit flags, compute the
stage transform, build the optional headset entry, assign the first three
enumerated gamepad ids to the roles, and insert a controller entry for
every gamepad with a valid pose. Returns the updated context and the
moment. -/
def VrContextM.sync (fromParts : T → Q → P) (ctx : VrContextM)
    (inp : SyncInput Q T) : VrContextM × VrMomentM P :=
  let ctx := inp.events.foldl applyEvent ctx
  let data := inp.data
  let stage : Mat4 :=
    match data.stage_parameters with
    | some stage =>
      (tryInverse stage.sitting_to_standing_transform).getD 1
    | none => 1
  let wh := size_from_data data
  let hmd : Option (HmdM P) :=
    match pose_transform fromParts inp.frame.pose, data.connected with
    | some pose, true =>
      some { name := data.display_name, size := wh, pose := pose }
    | _, _ => none
  let ids := inp.gamepads.map (fun gp => gp.id)
  let cont := inp.gamepads.foldl (contStep fromParts) (fun _ => none)
  (ctx,
   { cont := cont
     hmd := hmd
     primary := ids[0]?
     secondary := ids[1]?
     tertiary := ids[2]?
     layer := ctx.layer
     stage := stage
     exit := ctx.exit
     paused := ctx.paused })

/-! ### The stateful controller tracker (ViveController, src/vr.rs
lines 300-368) -/

/-- `ViveController`. -/
structure ViveControllerM (P : Type) where
  is : ControllerRef
  connected : Bool
  pose : P
  pose_delta : P
  trigger : ℚ
  pad : ℚ × ℚ
  pad_delta : ℚ × ℚ
  pad_touched : Bool
  menu : Bool
  grip : Bool

/-- `ViveController::default` at a given neutral pose (`na::one()`). -/
def ViveControllerM.default [One P] : ViveControllerM P :=
  { is := .Primary, connected := false, pose := 1, pose_delta := 1,
    trigger := 0, pad := (0, 0), pad_delta := (0, 0), pad_touched := false,
    menu := false, grip := false }

/-- `ViveController::update`: the result of the call together with the
state after it (the `Err` path leaves the state untouched). List indexing
`axes[k]`/`buttons[k]` is total here via `getD`; the arity guard makes the
defaults unreachable. -/
def ViveControllerM.update [Group P] (s : ViveControllerM P)
    (mom : VrMomentM P) : Except Unit Unit × ViveControllerM P :=
  match mom.controller s.is with
  | some cont =>
    if cont.axes.length ≠ 3 ∨ cont.buttons.length ≠ 2 then (.error (), s)
    else
      let s1 := { s with
        connected := true
        pose_delta := cont.pose * s.pose⁻¹
        pose := cont.pose }
      let x := cont.axes.getD 0 0
      let y := cont.axes.getD 1 0
      let s2 :=
        if x ≠ 0 ∨ y ≠ 0 then
          let pad : ℚ × ℚ := (x, y)
          { s1 with pad_delta := pad - s1.pad, pad := pad,
                    pad_touched := true }
        else
          { s1 with pad_touched := false }
      (.ok (), { s2 with
        trigger := cont.axes.getD 2 0
        menu := (cont.buttons.getD 0 ⟨false, false⟩).pressed
        grip := (cont.buttons.getD 1 ⟨false, false⟩).pressed })
  | none =>
    (.ok (), { s with
      pad_touched := false
      menu := false
      grip := false
      trigger := 0
      connected := false })

/-! ### Concrete fixtures used to evaluate the development on closed
inputs -/

def exInputs : UnishadeInputs := unishade_init 0 1 2

def exLeftEye : EyeContext :=
  { eye := fun _ => 0, view := 1, proj := 1, clip_offset := -1/2,
    clip := { x := 0, y := 0, w := 640, h := 720 } }

def exRightEye : EyeContext :=
  { eye := fun _ => 1, view := 1, proj := 1, clip_offset := 1/2,
    clip := { x := 640, y := 0, w := 640, h := 720 } }

def exParams : DrawParams UEvent :=
  { left := exLeftEye, right := exRightEye, encoder := [], color := 7,
    depth := 8 }

def exMesh : Mesh Unit :=
  { prim := .TriangleList, slice := 5, buf := 6, mat := () }

def exPainter0 : Painter UnishadeStyle UnishadeInputs :=
  { inputs := exInputs, map := [] }

def exPainterDone : Painter UnishadeStyle UnishadeInputs :=
  { inputs := exInputs, map := [(Primitive.TriangleList, ⟨0⟩)] }

def exPose (n : ℤ) : Multiplicative ℤ := Multiplicative.ofAdd n

def exControllerBad : ControllerM (Multiplicative ℤ) :=
  { name := "c", pose := exPose 4, axes := [1/2, 0],
    buttons := [⟨true, false⟩, ⟨false, false⟩] }

def exControllerGood : ControllerM (Multiplicative ℤ) :=
  { name := "c", pose := exPose 4, axes := [3/10, -1/5, 1/4],
    buttons := [⟨true, true⟩, ⟨false, false⟩] }

def exMomentOf (c : Option (ControllerM (Multiplicative ℤ))) :
    VrMomentM (Multiplicative ℤ) :=
  { cont := fun j => if j = 0 then c else none, hmd := none,
    primary := some 0, secondary := none, tertiary := none, layer := 0,
    stage := 1, exit := false, paused := false }

def exMoment7 : VrMomentM Unit :=
  { cont := fun _ => none, hmd := none, primary := some 7,
    secondary := none, tertiary := none, layer := 0, stage := 1,
    exit := false, paused := false }

def exCtx : VrContextM :=
  { near := 1/10, far := 100, layer := 0, exit := false, paused := false }

def exGamepad7 : GamepadM Unit Unit :=
  { id := 7, name := "g", pose := { orientation := none, position := none },
    axes := [], buttons := [] }

def exSyncInput : SyncInput Unit Unit :=
  { events := []
    data :=
      { display_name := "mock", connected := false
        left_eye_parameters := { render_width := 640, render_height := 720 }
        right_eye_parameters := { render_width := 640, render_height := 720 }
        stage_parameters := some { sitting_to_standing_transform := 1 } }
    frame := { pose := { orientation := none, position := none } }
    gamepads := [exGamepad7] }

/-! ### Theorems -/

/-- C3: a resolved controller with wrong arity (axes length not 3 or
buttons length not 2) makes `ViveController::update` return an error and
leaves every field of the tracker unchanged. -/
theorem update_arity_error {P : Type} [Group P] (s : ViveControllerM P)
    (mom : VrMomentM P) (cont : ControllerM P)
    (h : mom.controller s.is = some cont)
    (harity : cont.axes.length ≠ 3 ∨ cont.buttons.length ≠ 2) :
    s.update mom = (.error (), s) := by
  simp only [ViveControllerM.update, h, if_pos harity]

theorem update_arity_error_witness :
    ViveControllerM.update
      (ViveControllerM.default : ViveControllerM (Multiplicative ℤ))
      (exMomentOf (some exControllerBad)) =
      (.error (), ViveControllerM.default) :=
  update_arity_error ViveControllerM.default (exMomentOf (some exControllerBad))
    exControllerBad rfl (by left; simp [exControllerBad])

/-- C10: when the bound role resolves to no controller, `update` succeeds,
clears connected, pad_touched, menu and grip, zeroes the trigger, and
leaves pose, pose_delta, pad and pad_delta untouched. -/
theorem update_disconnected_reset {P : Type} [Group P]
    (s : ViveControllerM P) (mom : VrMomentM P)
    (h : mom.controller s.is = none) :
    (s.update mom).1 = .ok () ∧
    (s.update mom).2.connected = false ∧
    (s.update mom).2.pad_touched = false ∧
    (s.update mom).2.menu = false ∧
    (s.update mom).2.grip = false ∧
    (s.update mom).2.trigger = 0 ∧
    (s.update mom).2.pose = s.pose ∧
    (s.update mom).2.pose_delta = s.pose_delta ∧
    (s.update mom).2.pad = s.pad ∧
    (s.update mom).2.pad_delta = s.pad_delta := by
  simp [ViveControllerM.update, h]

theorem update_disconnected_reset_witness :
    (ViveControllerM.update
      (ViveControllerM.default : ViveControllerM (Multiplicative ℤ))
      (exMomentOf none)).1 = .ok () ∧
    (ViveControllerM.update
      (ViveControllerM.default : ViveControllerM (Multiplicative ℤ))
      (exMomentOf none)).2.pose =
      (ViveControllerM.default : ViveControllerM (Multiplicative ℤ)).pose :=
  ⟨(update_disconnected_reset ViveControllerM.default (exMomentOf none) rfl).1,
   (update_disconnected_reset ViveControllerM.default
      (exMomentOf none) rfl).2.2.2.2.2.2.1⟩

/-- C4: after a successful update against a controller with valid arity
and pose P1, the stored pose is P1, pose_delta is P1 composed with the
inverse of the previous pose P0, and pose_delta composed with P0
reconstructs P1. -/
theorem update_pose_delta {P : Type} [Group P] (s : ViveControllerM P)
    (mom : VrMomentM P) (cont : ControllerM P)
    (h : mom.controller s.is = some cont)
    (h3 : cont.axes.length = 3) (h2 : cont.buttons.length = 2) :
    (s.update mom).2.pose = cont.pose ∧
    (s.update mom).2.pose_delta = cont.pose * s.pose⁻¹ ∧
    (s.update mom).2.pose_delta * s.pose = cont.pose := by
  have harity : ¬(cont.axes.length ≠ 3 ∨ cont.buttons.length ≠ 2) := by
    simp [h3, h2]
  simp only [ViveControllerM.update, h, if_neg harity]
  by_cases hxy : cont.axes.getD 0 0 ≠ 0 ∨ cont.axes.getD 1 0 ≠ 0
  · rw [if_pos hxy]
    exact ⟨rfl, rfl, inv_mul_cancel_right cont.pose s.pose⟩
  · rw [if_neg hxy]
    exact ⟨rfl, rfl, inv_mul_cancel_right cont.pose s.pose⟩

theorem update_pose_delta_witness :
    (ViveControllerM.update
        (ViveControllerM.default : ViveControllerM (Multiplicative ℤ))
        (exMomentOf (some exControllerGood))).2.pose = exControllerGood.pose ∧
    (ViveControllerM.update
        (ViveControllerM.default : ViveControllerM (Multiplicative ℤ))
        (exMomentOf (some exControllerGood))).2.pose_delta *
      (ViveControllerM.default : ViveControllerM (Multiplicative ℤ)).pose =
      exControllerGood.pose :=
  ⟨(update_pose_delta ViveControllerM.default (exMomentOf (some exControllerGood))
      exControllerGood rfl rfl rfl).1,
   (update_pose_delta ViveControllerM.default (exMomentOf (some exControllerGood))
      exControllerGood rfl rfl rfl).2.2⟩

/-- C5: with valid arity, if pad axes 0 and 1 are both exactly zero the
update marks the pad untouched and keeps pad and pad_delta (whatever axis
2 holds); otherwise it marks it touched, sets pad_delta to the new pad
point minus the old one and pad to the new point. -/
theorem update_pad {P : Type} [Group P] (s : ViveControllerM P)
    (mom : VrMomentM P) (cont : ControllerM P)
    (h : mom.controller s.is = some cont)
    (h3 : cont.axes.length = 3) (h2 : cont.buttons.length = 2) :
    (cont.axes.getD 0 0 = 0 → cont.axes.getD 1 0 = 0 →
      (s.update mom).2.pad_touched = false ∧
      (s.update mom).2.pad = s.pad ∧
      (s.update mom).2.pad_delta = s.pad_delta) ∧
    ((cont.axes.getD 0 0 ≠ 0 ∨ cont.axes.getD 1 0 ≠ 0) →
      (s.update mom).2.pad_touched = true ∧
      (s.update mom).2.pad_delta =
        (cont.axes.getD 0 0, cont.axes.getD 1 0) - s.pad ∧
      (s.update mom).2.pad = (cont.axes.getD 0 0, cont.axes.getD 1 0)) := by
  have harity : ¬(cont.axes.length ≠ 3 ∨ cont.buttons.length ≠ 2) := by
    simp [h3, h2]
  constructor
  · intro hx hy
    have hxy : ¬(cont.axes.getD 0 0 ≠ 0 ∨ cont.axes.getD 1 0 ≠ 0) := by
      push_neg
      exact ⟨hx, hy⟩
    simp only [ViveControllerM.update, h, if_neg harity]
    rw [if_neg hxy]
    exact ⟨rfl, rfl, rfl⟩
  · intro hxy
    simp only [ViveControllerM.update, h, if_neg harity]
    rw [if_pos hxy]
    exact ⟨rfl, rfl, rfl⟩

theorem update_pad_witness :
    (ViveControllerM.update
        (ViveControllerM.default : ViveControllerM (Multiplicative ℤ))
        (exMomentOf (some exControllerGood))).2.pad_touched = true ∧
    (ViveControllerM.update
        (ViveControllerM.default : ViveControllerM (Multiplicative ℤ))
        (exMomentOf (some exControllerGood))).2.pad = (3/10, -1/5) := by
  have h := (update_pad ViveControllerM.default
    (exMomentOf (some exControllerGood)) exControllerGood rfl rfl rfl).2
    (by left; norm_num [exControllerGood])
  refine ⟨h.1, ?_⟩
  rw [h.2.2]
  norm_num [exControllerGood]

/-- C8: `ControllerRef::fixed` returns `Indexed i` when the ref's role
resolves to id `i` in the moment, and returns the original ref unchanged
when the role resolves to none. -/
theorem fixed_resolves {P : Type} (m : VrMomentM P) (r : ControllerRef) :
    (∀ i, r.index m = some i → r.fixed m = .Indexed i) ∧
    (r.index m = none → r.fixed m = r) := by
  constructor
  · intro i hi
    simp [ControllerRef.fixed, hi]
  · intro hn
    simp [ControllerRef.fixed, hn]

theorem fixed_resolves_witness :
    ControllerRef.fixed .Primary exMoment7 = .Indexed 7 ∧
    ControllerRef.fixed .Secondary exMoment7 = .Secondary :=
  ⟨(fixed_resolves exMoment7 .Primary).1 7 rfl,
   (fixed_resolves exMoment7 .Secondary).2 rfl⟩

/-- C1: drawing a mesh whose topology was never set up fails with the
unsupported-primitive error carrying the mesh's topology, and leaves the
style inputs and the encoder exactly as they were: nothing is staged,
updated or drawn. -/
theorem try_draw_unsupported {Sty Inputs Material Event : Type}
    (impl : StyleImpl Sty Inputs Material Event) (p : Painter Sty Inputs)
    (ctx : DrawParams Event) (model : Mat4) (mesh : Mesh Material)
    (h : lookupPrim mesh.prim p.map = none) :
    p.try_draw impl ctx model mesh =
      (.error (.invalidPrimitive mesh.prim
          "setup has not been done for this primitive type"),
       p.inputs, ctx.encoder) := by
  simp only [Painter.try_draw, h]

theorem try_draw_unsupported_witness :
    Painter.try_draw unishadeImpl exPainter0 exParams 1 exMesh =
      (.error (.invalidPrimitive .TriangleList
          "setup has not been done for this primitive type"),
       exInputs, []) :=
  try_draw_unsupported unishadeImpl exPainter0 exParams 1 exMesh rfl

/-- Helper: an absent key has no entries in the pipeline map. -/
theorem lookupPrim_none_countP {α : Type} (prim : Primitive)
    (l : List (Primitive × α)) (h : lookupPrim prim l = none) :
    l.countP (fun e => decide (e.1 = prim)) = 0 := by
  induction l with
  | nil => rfl
  | cons kv rest ih =>
    rw [lookupPrim] at h
    by_cases hk : kv.1 = prim
    · rw [if_pos hk] at h
      exact absurd h (by simp)
    · rw [if_neg hk] at h
      rw [List.countP_cons]
      simp [hk, ih h]

/-- C6: `setup` is idempotent. Starting from a painter whose cache lacks
the topology, a successful `setup` leaves exactly one compiled pipeline
for it, and running `setup` again for that topology — under any style
constructor whatsoever — is a no-op returning success, so the per-topology
constructor is only invoked when the topology is absent. -/
theorem setup_idempotent {Sty Inputs Material Event : Type}
    (impl : StyleImpl Sty Inputs Material Event) (p : Painter Sty Inputs)
    (prim : Primitive) (p₁ : Painter Sty Inputs)
    (h0 : lookupPrim prim p.map = none)
    (h : p.setup impl prim = .ok p₁) :
    p₁.map.countP (fun e => decide (e.1 = prim)) = 1 ∧
    ∀ {Material' Event' : Type}
      (impl' : StyleImpl Sty Inputs Material' Event'),
      p₁.setup impl' prim = .ok p₁ := by
  rw [Painter.setup, h0] at h
  rcases hn : impl.new p.inputs prim Rasterizer.new_fill with e | sty_inputs
  · rw [hn] at h
    exact absurd h (by simp)
  · rw [hn] at h
    simp only [Except.ok.injEq] at h
    subst h
    constructor
    · rw [List.countP_cons]
      simp [lookupPrim_none_countP prim p.map h0]
    · intro Material' Event' impl'
      rw [Painter.setup]
      simp [lookupPrim]

theorem setup_idempotent_witness :
    (Painter.mk exInputs [(Primitive.TriangleList, UnishadeStyle.mk 0)]).map.countP
      (fun e => decide (e.1 = Primitive.TriangleList)) = 1 ∧
    Painter.setup unishadeImpl
      (Painter.mk exInputs [(Primitive.TriangleList, UnishadeStyle.mk 0)])
      Primitive.TriangleList =
      .ok (Painter.mk exInputs [(Primitive.TriangleList, UnishadeStyle.mk 0)]) :=
  ⟨(setup_idempotent unishadeImpl exPainter0 Primitive.TriangleList
      (Painter.mk exInputs [(Primitive.TriangleList, UnishadeStyle.mk 0)])
      rfl rfl).1,
   (setup_idempotent unishadeImpl exPainter0 Primitive.TriangleList
      (Painter.mk exInputs [(Primitive.TriangleList, UnishadeStyle.mk 0)])
      rfl rfl).2 unishadeImpl⟩

/-- C2: a successful `try_draw` on a set-up topology records, in order:
the staged left-eye TransformBlock flushed to the transform buffer (plus a
pending shade update, if any), the left-eye draw call, the flushed
right-eye TransformBlock, and the right-eye draw call — exactly two draw
calls, left eye then right eye, sharing the color and depth targets and
the model matrix, each with its own eye's viewport rectangle, each eye's
block built from that eye's position, view, projection and clip offset. -/
theorem try_draw_two_eyes (p : Painter UnishadeStyle UnishadeInputs)
    (ctx : DrawParams UEvent) (model : Mat4) (mesh : Mesh Unit)
    (sty : UnishadeStyle) (h : lookupPrim mesh.prim p.map = some sty) :
    p.try_draw unishadeImpl ctx model mesh =
      (.ok (),
       { p.inputs with transform := none, shade := none },
       ctx.encoder ++
         [UEvent.updateTransformBuffer p.inputs.transform_block
            { eye := toHomogeneous ctx.left.eye, model := model,
              view := ctx.left.view, proj := ctx.left.proj,
              clip_offset := ctx.left.clip_offset }] ++
         (match p.inputs.shade with
          | some sh => [UEvent.updateShadeBuffer p.inputs.shade_block sh]
          | none => []) ++
         [UEvent.draw mesh.slice sty.pso
            { color := ctx.color, depth := ctx.depth, verts := mesh.buf,
              scissor := ctx.left.clip,
              transform := p.inputs.transform_block,
              shade := p.inputs.shade_block },
          UEvent.updateTransformBuffer p.inputs.transform_block
            { eye := toHomogeneous ctx.right.eye, model := model,
              view := ctx.right.view, proj := ctx.right.proj,
              clip_offset := ctx.right.clip_offset },
          UEvent.draw mesh.slice sty.pso
            { color := ctx.color, depth := ctx.depth, verts := mesh.buf,
              scissor := ctx.right.clip,
              transform := p.inputs.transform_block,
              shade := p.inputs.shade_block }]) := by
  obtain ⟨inputs, map⟩ := p
  obtain ⟨shs, tr, tb, sd, sb⟩ := inputs
  simp only at h
  cases sd with
  | none =>
    simp [Painter.try_draw, h, unishadeImpl, UnishadeStyle.draw_raw,
      List.append_assoc]
  | some sh =>
    simp [Painter.try_draw, h, unishadeImpl, UnishadeStyle.draw_raw,
      List.append_assoc]

theorem try_draw_two_eyes_witness :
    (Painter.try_draw unishadeImpl exPainterDone exParams 1 exMesh).1 =
      .ok () := by
  rw [try_draw_two_eyes exPainterDone exParams 1 exMesh ⟨0⟩ rfl]

/-- Helper: when the determinant is nonzero, `tryInverse` returns the
Mathlib matrix inverse. -/
theorem tryInverse_of_det_ne_zero (m : Mat4) (h : m.det ≠ 0) :
    tryInverse m = some m⁻¹ := by
  rw [tryInverse, if_neg h, Matrix.inv_def, Ring.inverse_eq_inv]

/-- C7: the moment's stage transform is the identity when the device
reports no stage parameters or when the reported sitting-to-standing
transform is singular, and is the inverse of that transform otherwise. -/
theorem sync_stage {Q T P : Type} (fromParts : T → Q → P)
    (ctx : VrContextM) (inp : SyncInput Q T) :
    (inp.data.stage_parameters = none →
      (VrContextM.sync fromParts ctx inp).2.stage = 1) ∧
    (∀ sp, inp.data.stage_parameters = some sp →
      sp.sitting_to_standing_transform.det = 0 →
      (VrContextM.sync fromParts ctx inp).2.stage = 1) ∧
    (∀ sp, inp.data.stage_parameters = some sp →
      sp.sitting_to_standing_transform.det ≠ 0 →
      (VrContextM.sync fromParts ctx inp).2.stage =
        sp.sitting_to_standing_transform⁻¹) := by
  refine ⟨fun hn => ?_, fun sp hs hd => ?_, fun sp hs hd => ?_⟩
  · simp [VrContextM.sync, hn]
  · simp [VrContextM.sync, hs, tryInverse, hd]
  · simp [VrContextM.sync, hs, tryInverse_of_det_ne_zero _ hd]

theorem sync_stage_witness :
    (VrContextM.sync (fun _ _ => ()) exCtx exSyncInput).2.stage =
      (1 : Mat4)⁻¹ :=
  (sync_stage (fun _ _ => ()) exCtx exSyncInput).2.2
    { sitting_to_standing_transform := 1 } rfl (by simp)

/-- Helper: a valid `pose_transform` needs both components present. -/
theorem pose_transform_isSome {Q T P : Type} (fromParts : T → Q → P)
    (pose : VRPoseM Q T) (h : (pose_transform fromParts pose).isSome) :
    pose.orientation.isSome ∧ pose.position.isSome := by
  cases ho : pose.orientation with
  | none => simp [pose_transform, ho] at h
  | some o =>
    cases hp : pose.position with
    | none => simp [pose_transform, ho, hp] at h
    | some t => simp [ho, hp]

/-- Helper: an entry of the folded controller map comes from the initial
map or from an enumerated gamepad with that id and a valid pose. -/
theorem contStep_foldl_some {Q T P : Type} (fromParts : T → Q → P)
    (gps : List (GamepadM Q T)) (m0 : Nat → Option (ControllerM P))
    (i : Nat) (c : ControllerM P)
    (h : (gps.foldl (contStep fromParts) m0) i = some c) :
    m0 i = some c ∨
    ∃ gp, gp ∈ gps ∧ gp.id = i ∧
      (pose_transform fromParts gp.pose).isSome := by
  induction gps generalizing m0 with
  | nil => exact Or.inl h
  | cons gp gps ih =>
    rw [List.foldl_cons] at h
    rcases ih (contStep fromParts m0 gp) h with h1 | ⟨gp', hmem, hid, hv⟩
    · rcases hv : pose_transform fromParts gp.pose with _ | pose
      · simp only [contStep, hv] at h1
        exact Or.inl h1
      · simp only [contStep, hv] at h1
        by_cases hi : i = gp.id
        · exact Or.inr ⟨gp, List.mem_cons_self gp gps, hi.symm, by simp [hv]⟩
        · rw [if_neg hi] at h1
          exact Or.inl h1
    · exact Or.inr ⟨gp', List.mem_cons_of_mem gp hmem, hid, hv⟩

/-- C9: `sync` assigns the primary/secondary/tertiary role ids from the
first three enumerated gamepads before any pose-validity filtering, while
the controller map only keeps gamepads whose pose has both an orientation
and a position; hence a moment can name a primary id whose controller
lookup yields none. -/
theorem sync_roles_before_filtering :
    (∀ {Q T P : Type} (fromParts : T → Q → P) (ctx : VrContextM)
      (inp : SyncInput Q T),
      ((VrContextM.sync fromParts ctx inp).2.primary =
          (inp.gamepads.map (fun gp => gp.id))[0]? ∧
       (VrContextM.sync fromParts ctx inp).2.secondary =
          (inp.gamepads.map (fun gp => gp.id))[1]? ∧
       (VrContextM.sync fromParts ctx inp).2.tertiary =
          (inp.gamepads.map (fun gp => gp.id))[2]?) ∧
      ∀ i c, (VrContextM.sync fromParts ctx inp).2.cont i = some c →
        ∃ gp, gp ∈ inp.gamepads ∧ gp.id = i ∧
          gp.pose.orientation.isSome ∧ gp.pose.position.isSome) ∧
    ((VrContextM.sync (fun _ _ => ()) exCtx exSyncInput).2.primary =
        some 7 ∧
     (VrContextM.sync (fun _ _ => ()) exCtx exSyncInput).2.controller
        .Primary = none) := by
  refine ⟨fun fromParts ctx inp => ⟨⟨?_, ?_, ?_⟩, ?_⟩, ?_, ?_⟩
  · simp [VrContextM.sync]
  · simp [VrContextM.sync]
  · simp [VrContextM.sync]
  · intro i c hc
    simp only [VrContextM.sync] at hc
    rcases contStep_foldl_some fromParts inp.gamepads _ i c hc with
      h0 | ⟨gp, hmem, hid, hv⟩
    · exact absurd h0 (by simp)
    · obtain ⟨ho, hp⟩ := pose_transform_isSome fromParts gp.pose hv
      exact ⟨gp, hmem, hid, ho, hp⟩
  · rfl
  · rfl

theorem sync_roles_before_filtering_witness :
    (VrContextM.sync (fun _ _ => ()) exCtx exSyncInput).2.primary =
      some 7 :=
  sync_roles_before_filtering.2.1

end Flight
